import Mathlib

set_option maxRecDepth 40000

/-!
Verification development for the ShopTalk retrieval-and-orchestration
pipeline (gateway + crawler).  Python source files are shallowly embedded:
text is `List Char`, machine integers are `Nat`/`Int`, exceptions are
`Except String`, and every network or library effect (vector search,
LLM completion, rerank APIs, JSON decoding, tool handlers) is an explicit
environment parameter.  Each embedded definition mirrors one function of
the repository and is named after it.
-/

/-! ### Python string primitives used by `CrawlerService._chunk_text`
`pyResolveIdx` is CPython slice-index resolution: a negative index counts
from the end of the string (clamped at 0), a nonnegative one is clamped at
the length. -/

def pyResolveIdx (len : Nat) (i : Int) : Nat :=
  if i < 0 then (len + i).toNat else min i.toNat len

/-- Python `text[a:b]` on a list of characters, with slice-index resolution. -/
def pySlice (l : List Char) (a b : Int) : List Char :=
  let lo := pyResolveIdx l.length a
  let hi := pyResolveIdx l.length b
  (l.drop lo).take (hi - lo)

/-- Index of the last occurrence of `c` in `l`, if any. -/
def lastIndexOfChar : List Char → Char → Option Nat
  | [], _ => none
  | a :: l, c =>
    match lastIndexOfChar l c with
    | some i => some (i + 1)
    | none => if a == c then some 0 else none

/-- Python `text.rfind(c, a, b)`: highest index of `c` inside the slice
`text[a:b]` (an absolute index), or `-1` when the slice does not contain
`c`. -/
def pyRfind (l : List Char) (c : Char) (a b : Int) : Int :=
  let lo := pyResolveIdx l.length a
  let hi := pyResolveIdx l.length b
  match lastIndexOfChar ((l.drop lo).take (hi - lo)) c with
  | none => -1
  | some i => (lo : Int) + i

/-- Python `str.strip()`: remove leading and trailing whitespace. -/
def pyStrip (l : List Char) : List Char :=
  ((l.dropWhile Char.isWhitespace).reverse.dropWhile Char.isWhitespace).reverse

/-! ### `CrawlerService._chunk_text` (src/crawler/services.py, lines 328-355)
The `while start < len(text)` loop.  `start` is an `Int` because the
Python code can drive it negative (`start = end - overlap`); slicing and
`rfind` then wrap Python-style.  The loop need not terminate for every
input, so it takes explicit fuel and returns `none` when the fuel is
exhausted. -/

def chunkLoop (text : List Char) (chunk_size overlap : Nat) :
    Nat → Int → List (List Char) → Option (List (List Char))
  | 0, _, _ => none
  | fuel + 1, start, chunks =>
    if start < (text.length : Int) then
      let e0 : Int := start + chunk_size
      if (text.length : Int) ≤ e0 then
        some (chunks ++ [pySlice text start (text.length : Int)])
      else
        let last_period := pyRfind text '.' start e0
        let last_newline := pyRfind text '\n' start e0
        let cut_point := max last_period last_newline
        let e := if start < cut_point then cut_point + 1 else e0
        chunkLoop text chunk_size overlap fuel (e - (overlap : Int))
          (chunks ++ [pySlice text start e])
    else
      some chunks

/-- `CrawlerService._chunk_text(text, chunk_size, overlap)`: a text no
longer than `chunk_size` is returned as the single chunk `[text]`;
otherwise the text is split by `chunkLoop` and the resulting fragments are
stripped, keeping only those whose stripped length exceeds 50. -/
def CrawlerService.chunk_text (fuel : Nat) (text : List Char)
    (chunk_size overlap : Nat) : Option (List (List Char)) :=
  if text.length ≤ chunk_size then some [text]
  else
    (chunkLoop text chunk_size overlap fuel 0 []).map
      (fun chunks => (chunks.map pyStrip).filter (fun c => 50 < c.length))

/-- `_chunk_text` at the configured defaults `chunk_size = 1000`,
`overlap = 200` (src/crawler/services.py lines 329-330). -/
def CrawlerService.chunk_text_config (fuel : Nat) (text : List Char) :
    Option (List (List Char)) :=
  CrawlerService.chunk_text fuel text 1000 200

/-- Concatenation of chunks after removing the configured overlap from
every chunk except the first: the round-trip operation named by the spec's
chunking claim. -/
def dechunk (overlap : Nat) : List (List Char) → List Char
  | [] => []
  | c :: rest => c ++ (rest.map (fun d => d.drop overlap)).flatten

/-- A 1250-character document: 1000 letters followed by 250 spaces. -/
def chunkCexText : List Char := List.replicate 1000 'x' ++ List.replicate 250 ' '

/-- The raw (pre-strip, pre-filter) chunks the splitting loop produces on
`chunkCexText`. -/
def chunkRawDemo : List (List Char) :=
  [List.replicate 1000 'x', List.replicate 200 'x' ++ List.replicate 250 ' ']

/-! ### `LLMRouter` (src/gateway/llm_router.py)
The chat-completion network call is an abstract effect
`generate : model → messages → Except String α`; the router's own logic
(task-to-model mapping and the fallback retry) is embedded literally. -/

/-- One chat message (role, content). -/
structure ChatMsg where
  role : String
  content : String
deriving Repr, DecidableEq

/-- `LLMRouter.get_model_for_task` (llm_router.py lines 144-151): the
`task_models` dict built from configuration with hard-coded defaults,
queried with the `default` entry as fallback. -/
def LLMRouter.get_model_for_task (models : List (String × String))
    (task : String) : String :=
  let planner := (models.lookup "planner").getD "gemini-2.0-flash-exp"
  let rag_answer := (models.lookup "rag_answer").getD "claude-3-5-sonnet-20241022"
  let followups := (models.lookup "followups").getD "gemini-1.5-flash"
  if task = "planner" then planner
  else if task = "rag_answer" then rag_answer
  else if task = "followups" then followups
  else rag_answer

/-- `LLMRouter.generate_with_fallback` (llm_router.py lines 153-171):
try the primary model for the task; on any failure retry once against the
`followups` (cheaper) model; if that also fails, re-raise its error.
Besides the result it returns the list of attempts actually made, each
tagged `(isFallbackAttempt, model)` in call order, so that call-count
properties can be stated. -/
def LLMRouter.generate_with_fallback {α : Type}
    (models : List (String × String))
    (generate : String → List ChatMsg → Except String α)
    (task : String) (messages : List ChatMsg) :
    Except String α × List (Bool × String) :=
  let primary_model := LLMRouter.get_model_for_task models task
  let fallback_model := LLMRouter.get_model_for_task models "followups"
  match generate primary_model messages with
  | .ok r => (.ok r, [(false, primary_model)])
  | .error _ =>
    match generate fallback_model messages with
    | .ok r => (.ok r, [(false, primary_model), (true, fallback_model)])
    | .error e2 => (.error e2, [(false, primary_model), (true, fallback_model)])

/-- Primary model used by the C3 witness scenario (the default planner
model, which its `generate` rejects). -/
def c3Gen : String → List ChatMsg → Except String String :=
  fun model _ =>
    if model = "gemini-2.0-flash-exp" then Except.error "provider down"
    else Except.ok "fallback answer"

/-! ### Crawl-job registry (src/crawler/main.py)
`crawl_jobs : Dict[str, asyncio.Task]` is a map from shop_id to the
owning task, modelled as an association list shop_id → `done` flag. -/

/-- Python dict assignment `d[k] = v` on the association-list model. -/
def dictSet (jobs : List (String × Bool)) (k : String) (v : Bool) :
    List (String × Bool) :=
  (k, v) :: jobs.filter (fun p => !(p.1 == k))

/-- Outcome of one `POST /crawl/start` call: the HTTP response (error
status + detail, or the success body fields), the registry afterwards, and
whether a new crawl task was spawned. -/
structure StartCrawlOutcome where
  response : Except (Nat × String) (String × String)
  jobs : List (String × Bool)
  task_created : Bool

/-- `start_crawl` (src/crawler/main.py lines 29-37): reject with HTTP 400
when the registry holds a not-yet-done task for the shop, otherwise create
a task (registered as not done) and record it under the shop_id. -/
def start_crawl (jobs : List (String × Bool)) (shop_id : String) :
    StartCrawlOutcome :=
  if (match jobs.lookup shop_id with
      | some done => !done
      | none => false) then
    { response := .error (400, "Crawl already in progress for this shop")
      jobs := jobs
      task_created := false }
  else
    { response := .ok ("started", shop_id)
      jobs := dictSet jobs shop_id false
      task_created := true }

/-! ### `CrawlerService.crawl_shop` (src/crawler/services.py lines 53-87)
URL discovery and per-URL processing are abstract effects.  The function
returns every successive value taken by the mutable `CrawlStatus` record,
so invariants can be stated over all snapshots a reader could observe. -/

/-- The `CrawlStatus` record of shared/models.py (timestamps as abstract
clock readings). -/
structure CrawlStatus where
  shop_id : String
  status : String
  pages_discovered : Nat
  pages_processed : Nat
  pages_indexed : Nat
  last_error : Option String
  started_at : Option Nat
  completed_at : Option Nat
deriving Repr, DecidableEq

/-- The per-URL loop of `crawl_shop` (services.py lines 70-79): a
successful `_process_url` increments `pages_processed` and `pages_indexed`
together; a per-page failure only records `last_error`.  Returns the
status snapshot after each URL. -/
def crawlSteps (process : String → Except String Unit) :
    CrawlStatus → List String → List CrawlStatus
  | _, [] => []
  | s, url :: rest =>
    let s' := match process url with
      | .ok _ => { s with pages_processed := s.pages_processed + 1,
                          pages_indexed := s.pages_indexed + 1 }
      | .error e => { s with last_error := some e }
    s' :: crawlSteps process s' rest

/-- `CrawlerService.crawl_shop`: initial running status, discovery, the
per-URL loop, then finalization to completed; a discovery failure
finalizes to failed.  The result lists every snapshot of the status
record in order. -/
def CrawlerService.crawl_shop (discover : Except String (List String))
    (process : String → Except String Unit)
    (shop_id : String) (t0 t1 : Nat) : List CrawlStatus :=
  let s0 : CrawlStatus :=
    { shop_id := shop_id, status := "running", pages_discovered := 0,
      pages_processed := 0, pages_indexed := 0, last_error := none,
      started_at := some t0, completed_at := none }
  match discover with
  | .error e =>
    [s0, { s0 with status := "failed", last_error := some e,
                   completed_at := some t1 }]
  | .ok urls =>
    let s1 := { s0 with pages_discovered := urls.length }
    let steps := crawlSteps process s1 urls
    let sN := (s1 :: steps).getLast (List.cons_ne_nil s1 steps)
    s0 :: s1 :: steps ++
      [{ sN with status := "completed", completed_at := some t1 }]

/-- Per-URL outcomes used by the C8 witness scenario: the second URL
fails. -/
def c8Process : String → Except String Unit :=
  fun url => if url = "https://shop.example/broken" then Except.error "timeout"
             else Except.ok ()

/-- The final status snapshot of the C8 witness crawl: two URLs
discovered, one processed and indexed, one failed. -/
def c8Final : CrawlStatus :=
  { shop_id := "acme", status := "completed", pages_discovered := 2,
    pages_processed := 1, pages_indexed := 1, last_error := some "timeout",
    started_at := some 0, completed_at := some 1 }

/-! ### `RAGService` and `RerankerService` (src/gateway/rag.py)
Embedding and vector search, the rerank backends (local cross-encoder
scores and the Cohere/Jina HTTP APIs) and the LLM completion are abstract
effects collected in `RagEnv`.  Scores are modelled as integers (their
values only flow through). -/

/-- `Source` of shared/models.py; the snippet is character text. -/
structure Source where
  url : String
  title : String
  snippet : List Char
  score : Int
deriving Repr, DecidableEq

/-- One vector-search result: the payload fields `RAGService.query` reads
plus the similarity score. -/
structure SearchHit where
  url : String
  title : String
  text : List Char
  score : Int
deriving Repr, DecidableEq

/-- `RAGQuery` of shared/models.py with its pydantic defaults. -/
structure RAGQuery where
  shop_id : String
  question : String
  top_k : Nat := 18
  rerank_top_n : Nat := 8
deriving Repr, DecidableEq

/-- `RAGResponse` of shared/models.py (its `tool_traces` field defaults to
empty and is never set by `RAGService.query`; it is omitted). -/
structure RAGResponse where
  answer : String
  sources : List Source
deriving Repr, DecidableEq

/-- Environment of effects for `RAGService` and `RerankerService`:
`reranker` is `config.reranker` after `__init__` (the local strategy
degrades to `none` when its imports are missing), the `rerank` fields are
the remote API calls returning `(index, relevance_score)` result rows,
and `generate` is `LLMRouter.generate(model, prompt)`. -/
structure RagEnv where
  reranker : String
  cohere_api_key : Option String
  jina_api_key : Option String
  embed : String → Except String (List Int)
  search : List Int → String → Nat → Except String (List SearchHit)
  bge_scores : List (String × List Char) → Except String (List Int)
  cohere_rerank : String → List (List Char) → Nat → Except String (List (Nat × Int))
  jina_rerank : String → List (List Char) → Nat → Except String (List (Nat × Int))
  generate : String → String → Except String String
  models : List (String × String)

/-- The snippet rule of `RAGService.query` (rag.py line 165):
`text[:300] + "..."` when the chunk text exceeds 300 characters, otherwise
the full text. -/
def mkSnippet (text : List Char) : List Char :=
  if 300 < text.length then text.take 300 ++ "...".toList
  else text

/-- Building a `Source` from a search hit (rag.py lines 162-167). -/
def sourceOfHit (h : SearchHit) : Source :=
  { url := h.url, title := h.title, snippet := mkSnippet h.text,
    score := h.score }

/-- Stable descending insertion by score: the later element goes after
equal scores, matching Python `list.sort(key=score, reverse=True)`. -/
def insertScoredDesc (p : Source × Int) : List (Source × Int) → List (Source × Int)
  | [] => [p]
  | q :: l => if q.2 ≤ p.2 then p :: q :: l else q :: insertScoredDesc p l

/-- Stable descending sort by score. -/
def sortScoredDesc : List (Source × Int) → List (Source × Int)
  | [] => []
  | p :: l => insertScoredDesc p (sortScoredDesc l)

/-- `RerankerService._rerank_with_bge` (rag.py lines 52-71): score the
(query, snippet) pairs with the cross-encoder, sort descending, keep the
first `top_n` with their new scores. -/
def RerankerService.rerank_with_bge (env : RagEnv) (query : String)
    (sources : List Source) (top_n : Nat) : Except String (List Source) := do
  let scores ← env.bge_scores (sources.map (fun s => (query, s.snippet)))
  let sorted := sortScoredDesc (sources.zip scores)
  pure ((sorted.take top_n).map (fun p => { p.1 with score := p.2 }))

/-- The result loop shared by the Cohere and Jina paths (rag.py lines
94-98 and 123-127): each result row indexes into the retrieved sources;
an out-of-range index raises. -/
def pickReranked (sources : List Source) :
    List (Nat × Int) → Except String (List Source)
  | [] => .ok []
  | (idx, sc) :: rest =>
    match sources.get? idx with
    | none => .error "IndexError: list index out of range"
    | some s => (pickReranked sources rest).map (fun r => { s with score := sc } :: r)

/-- `RerankerService._rerank_with_cohere` (rag.py lines 73-100): missing
API key degrades to truncation; an HTTP or decoding failure raises. -/
def RerankerService.rerank_with_cohere (env : RagEnv) (query : String)
    (sources : List Source) (top_n : Nat) : Except String (List Source) :=
  match env.cohere_api_key with
  | none => .ok (sources.take top_n)
  | some _ => do
    let results ← env.cohere_rerank query (sources.map (fun s => s.snippet)) top_n
    pickReranked sources results

/-- `RerankerService._rerank_with_jina` (rag.py lines 102-129). -/
def RerankerService.rerank_with_jina (env : RagEnv) (query : String)
    (sources : List Source) (top_n : Nat) : Except String (List Source) :=
  match env.jina_api_key with
  | none => .ok (sources.take top_n)
  | some _ => do
    let results ← env.jina_rerank query (sources.map (fun s => s.snippet)) top_n
    pickReranked sources results

/-- `RerankerService.rerank` (rag.py lines 35-50): identity truncation for
strategy `none`, empty input, or an unknown strategy; any exception from a
strategy is caught and degrades to truncation. -/
def RerankerService.rerank (env : RagEnv) (query : String)
    (sources : List Source) (top_n : Nat) : List Source :=
  if env.reranker = "none" ∨ sources.isEmpty then sources.take top_n
  else
    match (if env.reranker = "local_bge" then
        RerankerService.rerank_with_bge env query sources top_n
      else if env.reranker = "cohere" then
        RerankerService.rerank_with_cohere env query sources top_n
      else if env.reranker = "jina_cloud" then
        RerankerService.rerank_with_jina env query sources top_n
      else .ok (sources.take top_n)) with
    | .ok reranked => reranked
    | .error _ => sources.take top_n

/-- `RAGService._prepare_context` (rag.py lines 194-198). -/
def RAGService.prepare_context (sources : List Source) : String :=
  String.intercalate "\n" (sources.enum.map (fun p =>
    "Source " ++ toString (p.1 + 1) ++ " (" ++ p.2.title ++ "):\n" ++
      String.mk p.2.snippet ++ "\n"))

/-- The grounded-answer prompt of `RAGService._generate_answer`
(rag.py lines 205-219). -/
def ragAnswerPrompt (question context : String) : String :=
  "You are a shopping assistant. Answer the customer\x27s question using ONLY the provided shop content.\n\nQuestion: " ++
    question ++ "\n\nShop Content:\n" ++ context ++
    "\n\nGuidelines:\n- Answer directly and helpfully\n- If the information isn\x27t in the shop content, say so\n- Include relevant details like prices, policies, or product features when available\n- Keep the answer concise but informative\n- If you mention specific information, reference which source it came from\n\nAnswer:"

/-- `RAGService._generate_answer` (rag.py lines 200-230): ask the
configured `rag_answer` model; a generation failure is caught and becomes
the degraded source-count answer. -/
def RAGService.generate_answer (env : RagEnv) (question context : String)
    (sources : List Source) : String :=
  let model := (env.models.lookup "rag_answer").getD "claude-3-5-sonnet-20241022"
  match env.generate model (ragAnswerPrompt question context) with
  | .ok response => response
  | .error _ =>
    "Based on the shop\x27s content, I found " ++ toString sources.length ++
      " relevant sources, but I encountered an issue generating a comprehensive answer. Please check the sources provided."

/-- The canned responses of `RAGService.query`. -/
def ragNoInfoAnswer : String :=
  "I couldn\x27t find any relevant information in this shop\x27s content to answer your question."

/-- The catch-all fallback response of `RAGService.query` (rag.py lines
187-192). -/
def ragErrorResponse : RAGResponse :=
  { answer := "I encountered an error while searching for information. Please try again.",
    sources := [] }

/-- The `try` block of `RAGService.query` (rag.py lines 143-185): embed,
search scoped to the shop, build sources with the snippet rule, early
return on empty retrieval, rerank, build context, generate the answer. -/
def RAGService.query_body (env : RagEnv) (q : RAGQuery) :
    Except String RAGResponse := do
  let vec ← env.embed q.question
  let hits ← env.search vec q.shop_id q.top_k
  let sources := hits.map sourceOfHit
  if sources.isEmpty then
    pure { answer := ragNoInfoAnswer, sources := [] }
  else
    let reranked := RerankerService.rerank env q.question sources q.rerank_top_n
    let context := RAGService.prepare_context reranked
    let answer := RAGService.generate_answer env q.question context reranked
    pure { answer := answer, sources := reranked }

/-- `RAGService.query` (rag.py lines 142-192): the whole body is wrapped
in a catch-all that converts any failure into the fixed apologetic
`RAGResponse`, so the function itself never raises. -/
def RAGService.query (env : RagEnv) (q : RAGQuery) : RAGResponse :=
  match RAGService.query_body env q with
  | .ok r => r
  | .error _ => ragErrorResponse

/-- `rag_query` endpoint (src/gateway/main.py lines 74-79): the call to
`rag_service.query` is wrapped in a handler turning an exception into an
HTTP 500; since `RAGService.query` catches everything internally, the
value entering the handler is always a success. -/
def rag_query_endpoint (env : RagEnv) (q : RAGQuery) :
    Except (Nat × String) RAGResponse :=
  match (Except.ok (RAGService.query env q) : Except String RAGResponse) with
  | .ok r => .ok r
  | .error e => .error (500, e)

/-- Environment for the C1 counterexample: the embedding model raises, so
the underlying query operation fails internally. -/
def c1Env : RagEnv :=
  { reranker := "none", cohere_api_key := none, jina_api_key := none,
    embed := fun _ => .error "embedding model offline",
    search := fun _ _ _ => .error "unreachable",
    bge_scores := fun _ => .error "unused",
    cohere_rerank := fun _ _ _ => .error "unused",
    jina_rerank := fun _ _ _ => .error "unused",
    generate := fun _ _ => .error "unused", models := [] }

/-- Query for the C1 scenario. -/
def c1Query : RAGQuery := { shop_id := "acme", question := "returns?" }

/-- Environment for the C6 counterexample: the Cohere rerank API answers
with more rows than `top_n`, which the code copies without truncation. -/
def c6Env : RagEnv :=
  { reranker := "cohere", cohere_api_key := some "key", jina_api_key := none,
    embed := fun _ => .ok [1],
    search := fun _ _ _ => .ok
      [{ url := "https://acme.example/a", title := "A", text := "alpha".toList, score := 3 },
       { url := "https://acme.example/b", title := "B", text := "beta".toList, score := 2 }],
    bge_scores := fun _ => .error "unused",
    cohere_rerank := fun _ _ _ => .ok [(0, 9), (1, 8)],
    jina_rerank := fun _ _ _ => .error "unused",
    generate := fun _ _ => .ok "answer", models := [] }

/-- Query for the C6 scenario: `top_k = 2`, `rerank_top_n = 1`. -/
def c6Query : RAGQuery :=
  { shop_id := "acme", question := "returns?", top_k := 2, rerank_top_n := 1 }

/-- Environment for the C6 witness: the Cohere rerank API honours its
contract and returns a single row for `top_n = 1`. -/
def c6WitEnv : RagEnv :=
  { reranker := "cohere", cohere_api_key := some "key", jina_api_key := none,
    embed := fun _ => .ok [1],
    search := fun _ _ _ => .ok
      [{ url := "https://acme.example/a", title := "A", text := "alpha".toList, score := 3 },
       { url := "https://acme.example/b", title := "B", text := "beta".toList, score := 2 }],
    bge_scores := fun _ => .error "unused",
    cohere_rerank := fun _ _ _ => .ok [(0, 9)],
    jina_rerank := fun _ _ _ => .error "unused",
    generate := fun _ _ => .ok "answer", models := [] }

/-- The single search hit of the C10 scenario: its chunk text is 400
characters long. -/
def c10Hit : SearchHit :=
  { url := "https://acme.example/p", title := "P",
    text := List.replicate 400 'a', score := 5 }

/-- Environment for the C10 witness: one retrieved chunk longer than 300
characters. -/
def c10Env : RagEnv :=
  { reranker := "none", cohere_api_key := none, jina_api_key := none,
    embed := fun _ => .ok [1],
    search := fun _ _ _ => .ok [c10Hit],
    bge_scores := fun _ => .error "unused",
    cohere_rerank := fun _ _ _ => .error "unused",
    jina_rerank := fun _ _ _ => .error "unused",
    generate := fun _ _ => .ok "answer", models := [] }

/-- Query for the C10 scenario. -/
def c10Query : RAGQuery := { shop_id := "acme", question := "specs?" }

/-! ### JSON values and the tool registry (src/gateway/tools.py)
`json.loads`/`json.dumps` are Python-stdlib effects supplied by the
environment; decoded values live in a small JSON value type.  Tool
handlers are environment effects from an argument dict to a result or an
exception. -/

/-- A decoded JSON / Python value as the agent code manipulates it. -/
inductive Json where
  | null : Json
  | bool (b : Bool) : Json
  | num (n : Int) : Json
  | str (s : String) : Json
  | arr (elems : List Json) : Json
  | obj (fields : List (String × Json)) : Json

/-- Python truthiness of a decoded value (`not arguments["shop_id"]`). -/
def Json.falsy : Json → Bool
  | .null => true
  | .bool b => !b
  | .num n => n == 0
  | .str s => s == ""
  | .arr l => l.isEmpty
  | .obj l => l.isEmpty

/-- A tool handler: argument dict to result, or a raised exception. -/
def ToolHandler : Type := List (String × Json) → Except String Json

/-- `ToolRegistry.execute_tool` (tools.py lines 122-132): unknown names
and raising handlers both produce a structured result; nothing escapes. -/
def ToolRegistry.execute_tool (tools : List (String × ToolHandler))
    (tool_name : String) (arguments : List (String × Json)) : Json :=
  match tools.lookup tool_name with
  | none => .obj [("error", .str ("Unknown tool: " ++ tool_name))]
  | some handler =>
    match handler arguments with
    | .ok result => .obj [("result", result)]
    | .error e => .obj [("error", .str e)]

/-- One tool invocation requested by the model: name, raw arguments
(either a JSON-encoded string or an already-decoded dict), call id. -/
inductive PyArgs where
  | raw (s : String) : PyArgs
  | dict (d : List (String × Json)) : PyArgs

/-- A requested tool call from an LLM response. -/
structure ToolCallReq where
  name : String
  arguments : PyArgs
  id : String

/-- Result of a tool-capable `LLMRouter.generate` call: plain text, or
content plus requested tool calls. -/
inductive GenOut where
  | text (s : String) : GenOut
  | withTools (content : Option String) (tool_calls : List ToolCallReq) : GenOut

/-- The `ToolTrace` record (shared/models.py) as the agent code fills it:
tool name, input arguments, output payload.  The wall-clock fields `ts`
and `latency_ms` are I/O readings and are omitted. -/
structure ToolTrace where
  name : String
  input : List (String × Json)
  output : Json

/-- Python dict assignment `d[k] = v` preserving insertion order. -/
def dictUpdate (d : List (String × Json)) (k : String) (v : Json) :
    List (String × Json) :=
  if (d.lookup k).isSome then d.map (fun p => if p.1 == k then (k, v) else p)
  else d ++ [(k, v)]

/-! ### `AgentOrchestrator` (src/gateway/agent.py)
`get_prompt` is keyed by template name (its interpolation variables are
folded into the environment); `gen` is `generate_with_fallback` without
tools (a text completion), `genT` with the tool schemas attached. -/

/-- Environment of effects for the orchestrator. -/
structure AgentEnv where
  rag : RagEnv
  models : List (String × String)
  gen : String → List ChatMsg → Except String String
  genT : String → List ChatMsg → Except String GenOut
  get_prompt : String → Except String String
  json_loads : String → Except String Json
  json_dumps : Json → String
  tools : List (String × ToolHandler)

/-- The planner default decision. -/
def ragOnlyDecision : Json := Json.obj [("action", Json.str "rag_only")]

/-- `AgentOrchestrator._make_planning_decision` (agent.py lines 125-159):
build the planner prompt, call the router with fallback, decode the
response; a JSON decode failure defaults to `rag_only`, and the outer
handler turns any other failure (prompt rendering, both models failing)
into `rag_only` as well. -/
def AgentOrchestrator.make_planning_decision (env : AgentEnv) : Json :=
  match (do
      let planner_prompt ← env.get_prompt "agent/planner"
      (LLMRouter.generate_with_fallback env.models env.gen "planner"
        [{ role := "user", content := planner_prompt }]).1
    : Except String String) with
  | .error _ => ragOnlyDecision
  | .ok response =>
    match env.json_loads response with
    | .ok decision => decision
    | .error _ => ragOnlyDecision

/-- The dict `_handle_rag_query` returns (answer plus source dicts). -/
structure RagHandlerResult where
  answer : String
  sources : List Source

/-- `AgentOrchestrator._handle_rag_query` (agent.py lines 161-175). -/
def AgentOrchestrator.handle_rag_query (rag : RagEnv)
    (shop_id user_message : String) : RagHandlerResult :=
  let rag_response := RAGService.query rag
    { shop_id := shop_id, question := user_message }
  { answer := rag_response.answer, sources := rag_response.sources }

/-- One iteration of the tool-call loop of `_handle_tool_usage`
(agent.py lines 210-244), with its inner `try/except`.  `lastArgs` is the
current binding of the loop-local `arguments` variable (`none` before the
first assignment).  Returns the appended trace, the `tool_results` entry
(none when the iteration failed before producing a result) and the new
`arguments` binding — or an exception when the `except` clause itself
raises (`arguments` unbound on a first-iteration decode failure).  A
decoded non-object argument value is modelled as the `TypeError` the
`"shop_id" in arguments` check raises for non-container values. -/
def runToolCall (env : AgentEnv) (shop_id : String)
    (lastArgs : Option (List (String × Json))) (c : ToolCallReq) :
    Except String (ToolTrace × Option (String × Json) × Option (List (String × Json))) :=
  let parsed : Except String (List (String × Json)) :=
    match c.arguments with
    | .dict d => .ok d
    | .raw s =>
      match env.json_loads s with
      | .ok (Json.obj d) => .ok d
      | .ok _ => .error "TypeError"
      | .error _ => .error "JSONDecodeError"
  match parsed with
  | .ok d =>
    let args :=
      match d.lookup "shop_id" with
      | some v => if v.falsy then dictUpdate d "shop_id" (.str shop_id) else d
      | none => d
    let result := ToolRegistry.execute_tool env.tools c.name args
    .ok ({ name := c.name, input := args, output := result },
      some (c.name, result), some args)
  | .error e =>
    match lastArgs with
    | none => .error "UnboundLocalError"
    | some stale =>
      .ok ({ name := c.name, input := stale,
             output := .obj [("error", .str e)] }, none, some stale)

/-- The tool-call loop of `_handle_tool_usage`: thread the `arguments`
binding, the trace list and the `tool_results` dict through the calls;
an exception escaping an iteration aborts the loop (third component). -/
def runToolCalls (env : AgentEnv) (shop_id : String) :
    List ToolCallReq → Option (List (String × Json)) → List ToolTrace →
      List (String × Json) →
      List ToolTrace × List (String × Json) × Option String
  | [], _, traces, results => (traces, results, none)
  | c :: rest, lastArgs, traces, results =>
    match runToolCall env shop_id lastArgs c with
    | .ok (trace, entry, newLast) =>
      let results' :=
        match entry with
        | some (k, v) => dictUpdate results k v
        | none => results
      runToolCalls env shop_id rest newLast (traces ++ [trace]) results'
    | .error e => (traces, results, some e)

/-- The dict `_handle_tool_usage` returns. -/
structure ToolUsageResult where
  results : List (String × Json)
  tool_traces : List ToolTrace
  sources : List Source

/-- `AgentOrchestrator._handle_tool_usage` (agent.py lines 177-258): ask
the tool-capable planner, run every requested call, catch everything else
into an empty result that keeps the traces gathered so far.  A plain-text
response skips the loop. -/
def AgentOrchestrator.handle_tool_usage (env : AgentEnv) (shop_id : String) :
    ToolUsageResult :=
  match (do
      let prompt ← env.get_prompt "agent/tool_executor"
      (LLMRouter.generate_with_fallback env.models env.genT "planner"
        [{ role := "user", content := prompt }]).1
    : Except String GenOut) with
  | .error _ => { results := [], tool_traces := [], sources := [] }
  | .ok (.text _) => { results := [], tool_traces := [], sources := [] }
  | .ok (.withTools _ calls) =>
    match runToolCalls env shop_id calls none [] [] with
    | (traces, results, none) =>
      { results := results, tool_traces := traces, sources := [] }
    | (traces, _, some _) =>
      { results := [], tool_traces := traces, sources := [] }

/-- `AgentOrchestrator._synthesize_tool_response` (agent.py lines
260-287): a synthesis failure returns the raw tool results inline. -/
def AgentOrchestrator.synthesize_tool_response (env : AgentEnv)
    (tool_results : List (String × Json)) : String :=
  match (do
      let prompt ← env.get_prompt "agent/synthesizer"
      (LLMRouter.generate_with_fallback env.models env.gen "rag_answer"
        [{ role := "user", content := prompt }]).1
    : Except String String) with
  | .ok response => response
  | .error _ =>
    "I was able to gather some information using tools, but encountered an issue synthesizing the response. Here are the raw results: " ++
      env.json_dumps (Json.obj tool_results)

/-- `AgentOrchestrator._combine_rag_and_tools` (agent.py lines 289-318). -/
def AgentOrchestrator.combine_rag_and_tools (env : AgentEnv)
    (rag_answer : String) (tool_results : List (String × Json)) : String :=
  match (do
      let prompt ← env.get_prompt "agent/combiner"
      (LLMRouter.generate_with_fallback env.models env.gen "rag_answer"
        [{ role := "user", content := prompt }]).1
    : Except String String) with
  | .ok response => response
  | .error _ =>
    "Based on the shop information: " ++ rag_answer ++
      "\n\nAdditionally, I gathered: " ++ env.json_dumps (Json.obj tool_results)

/-- `AgentOrchestrator._handle_direct_response` (agent.py lines 320-346). -/
def AgentOrchestrator.handle_direct_response (env : AgentEnv) : String :=
  match (do
      let prompt ← env.get_prompt "agent/direct"
      (LLMRouter.generate_with_fallback env.models env.gen "followups"
        [{ role := "user", content := prompt }]).1
    : Except String String) with
  | .ok response => response
  | .error _ =>
    "I\x27m here to help you with shopping questions. Could you please rephrase your question or ask about products, policies, or other shop-related topics?"

/-- `AgentOrchestrator._generate_followups` (agent.py lines 348-374): a
decode failure yields the empty list; `.get` on a non-dict raises and the
outer handler also yields the empty list. -/
def AgentOrchestrator.generate_followups (env : AgentEnv) : Json :=
  match (do
      let prompt ← env.get_prompt "features/followups"
      let response ← (LLMRouter.generate_with_fallback env.models env.gen "followups"
        [{ role := "user", content := prompt }]).1
      (match env.json_loads response with
       | .ok (Json.obj fields) =>
         Except.ok ((fields.lookup "followups").getD (Json.arr []))
       | .ok _ => Except.error "AttributeError"
       | .error _ => Except.ok (Json.arr []))
    : Except String Json) with
  | .ok followups => followups
  | .error _ => Json.arr []

/-- The `/chat` response dict `process_query` returns. -/
structure ChatResult where
  answer : String
  sources : List Source
  tool_traces : List ToolTrace
  followups : Json
  action_taken : String

/-- The generic error result of `process_query` (agent.py lines 115-123). -/
def agentErrorResult : ChatResult :=
  { answer := "I encountered an error while processing your request. Please try again.",
    sources := [], tool_traces := [], followups := Json.arr [],
    action_taken := "error" }

/-- `AgentOrchestrator.process_query` (agent.py lines 24-123): plan,
dispatch on the decision's `action` (reading `decision["action"]` raises
for a non-dict or key-less decision), follow-ups, and a top-level
catch-all producing the generic error result. -/
def AgentOrchestrator.process_query (env : AgentEnv)
    (shop_id user_message : String) : ChatResult :=
  match (do
      let decision := AgentOrchestrator.make_planning_decision env
      let action ←
        (match decision with
         | Json.obj fields =>
           match fields.lookup "action" with
           | some a => Except.ok a
           | none => Except.error "KeyError"
         | _ => Except.error "TypeError")
      match action with
      | Json.str s =>
        if s = "rag_only" then
          let rag_response := AgentOrchestrator.handle_rag_query env.rag
            shop_id user_message
          let followups := AgentOrchestrator.generate_followups env
          pure { answer := rag_response.answer, sources := rag_response.sources,
                 tool_traces := [], followups := followups,
                 action_taken := "rag_search" }
        else if s = "tool_use" then
          let tool_response := AgentOrchestrator.handle_tool_usage env shop_id
          let final_answer := AgentOrchestrator.synthesize_tool_response env
            tool_response.results
          let followups := AgentOrchestrator.generate_followups env
          pure { answer := final_answer, sources := [],
                 tool_traces := tool_response.tool_traces,
                 followups := followups, action_taken := "tool_execution" }
        else if s = "hybrid" then
          let rag_response := AgentOrchestrator.handle_rag_query env.rag
            shop_id user_message
          let tool_response := AgentOrchestrator.handle_tool_usage env shop_id
          let combined_answer := AgentOrchestrator.combine_rag_and_tools env
            rag_response.answer tool_response.results
          let followups := AgentOrchestrator.generate_followups env
          pure { answer := combined_answer, sources := rag_response.sources,
                 tool_traces := tool_response.tool_traces,
                 followups := followups, action_taken := "hybrid_rag_tools" }
        else
          let direct_response := AgentOrchestrator.handle_direct_response env
          let followups := AgentOrchestrator.generate_followups env
          pure { answer := direct_response, sources := [], tool_traces := [],
                 followups := followups, action_taken := "direct_response" }
      | _ =>
        let direct_response := AgentOrchestrator.handle_direct_response env
        let followups := AgentOrchestrator.generate_followups env
        pure { answer := direct_response, sources := [], tool_traces := [],
               followups := followups, action_taken := "direct_response" }
    : Except String ChatResult) with
  | .ok r => r
  | .error _ => agentErrorResult

/-- `chat` endpoint (src/gateway/main.py lines 54-71): exceptions from
`process_query` would become HTTP 500, but `process_query` has a top-level
catch-all, so the value entering the handler is always a success. -/
def chat_endpoint (env : AgentEnv) (shop_id user_message : String) :
    Except (Nat × String) ChatResult :=
  match (Except.ok (AgentOrchestrator.process_query env shop_id user_message) :
      Except String ChatResult) with
  | .ok r => .ok r
  | .error e => .error (500, e)

/-- Rag environment shared by the C4/C5 agent scenarios (empty shop). -/
def c45RagEnv : RagEnv :=
  { reranker := "none", cohere_api_key := none, jina_api_key := none,
    embed := fun _ => .ok [1],
    search := fun _ _ _ => .ok [],
    bge_scores := fun _ => .error "unused",
    cohere_rerank := fun _ _ _ => .error "unused",
    jina_rerank := fun _ _ _ => .error "unused",
    generate := fun _ _ => .ok "answer", models := [] }

/-- Agent environment for the C4 witness: the planner (and every other
completion) answers non-JSON text. -/
def c4Env : AgentEnv :=
  { rag := c45RagEnv, models := [],
    gen := fun _ _ => .ok "I think we should retrieve.",
    genT := fun _ _ => .ok (.text "no calls"),
    get_prompt := fun _ => .ok "PROMPT",
    json_loads := fun _ => .error "Expecting value: line 1 column 1 (char 0)",
    json_dumps := fun _ => "",
    tools := [] }

/-- Tool registry for the C5 witness: one handler that raises, one that
succeeds. -/
def c5Tools : List (String × ToolHandler) :=
  [("convert_currency", fun _ => .error "rate service down"),
   ("geolocate_ip", fun _ => .ok (Json.str "US"))]

/-- Two requested tool calls with decoded argument dicts; the first one's
handler raises. -/
def c5Calls : List ToolCallReq :=
  [{ name := "convert_currency", arguments := .dict [("amount", Json.num 100)],
     id := "call_1" },
   { name := "geolocate_ip", arguments := .dict [], id := "call_2" }]

/-- Agent environment for the C5 witness. -/
def c5Env : AgentEnv :=
  { rag := c45RagEnv, models := [],
    gen := fun _ _ => .ok "text",
    genT := fun _ _ => .ok (.withTools none c5Calls),
    get_prompt := fun _ => .ok "PROMPT",
    json_loads := fun _ => .error "Expecting value: line 1 column 1 (char 0)",
    json_dumps := fun _ => "",
    tools := c5Tools }

/-! ### Theorems -/

/-- C9: a text whose length is at most `chunk_size` is returned by
`_chunk_text` as exactly the one-element list `[text]`, unmodified; the
strip and minimum-length filter only run on the splitting path. -/
theorem chunk_text_short (fuel chunk_size overlap : Nat) (text : List Char)
    (h : text.length ≤ chunk_size) :
    CrawlerService.chunk_text fuel text chunk_size overlap = some [text] := by
  simp [CrawlerService.chunk_text, h]

/-- Witness for C9 at the configured chunk size: a 52-character text of
whitespace (shorter than the 50-character minimum fragment length) comes
back as a single unmodified chunk. -/
theorem chunk_text_short_witness :
    (List.replicate 52 ' ').length ≤ 1000 ∧
      CrawlerService.chunk_text 0 (List.replicate 52 ' ') 1000 200 =
        some [List.replicate 52 ' '] :=
  ⟨by decide, chunk_text_short 0 1000 200 (List.replicate 52 ' ') (by decide)⟩

/-- C2 counterexample: on `chunkCexText`, `_chunk_text` at the configured
sizes produces the chunks `[x^1000, x^200]` (the final strip removed the
250 trailing spaces), and concatenating the chunks minus the 200-character
overlap yields `x^1000`, which does not reconstruct the document: the span
of 250 trailing spaces is lost. -/
theorem chunk_text_roundtrip_cex :
    CrawlerService.chunk_text_config 10 chunkCexText =
        some [List.replicate 1000 'x', List.replicate 200 'x'] ∧
      dechunk 200 [List.replicate 1000 'x', List.replicate 200 'x'] ≠
        chunkCexText := by
  constructor
  · decide
  · decide

theorem lastIndexOfChar_eq_none (l : List Char) (c : Char) (h : c ∉ l) :
    lastIndexOfChar l c = none := by
  induction l with
  | nil => rfl
  | cons a l ih =>
    have h1 : c ∉ l := fun hm => h (List.mem_cons_of_mem a hm)
    have h2 : ¬(a = c) := fun e => h (e ▸ List.mem_cons_self a l)
    simp [lastIndexOfChar, ih h1, h2]

theorem pyRfind_eq_neg_one (l : List Char) (c : Char) (a b : Int) (h : c ∉ l) :
    pyRfind l c a b = -1 := by
  have hseg : c ∉ (l.drop (pyResolveIdx l.length a)).take
      (pyResolveIdx l.length b - pyResolveIdx l.length a) :=
    fun hm => h (List.drop_subset _ l (List.take_subset _ _ hm))
  simp only [pyRfind]
  rw [lastIndexOfChar_eq_none _ _ hseg]

theorem pySlice_nat (l : List Char) (s e : Nat) (hs : s ≤ l.length)
    (he : e ≤ l.length) :
    pySlice l (s : Int) (e : Int) = (l.drop s).take (e - s) := by
  simp only [pySlice, pyResolveIdx]
  have h1 : ¬((s : Int) < 0) := by omega
  have h2 : ¬((e : Int) < 0) := by omega
  rw [if_neg h1, if_neg h2]
  simp [Int.toNat_natCast, min_eq_left hs, min_eq_left he]

theorem pySlice_to_end (l : List Char) (s : Nat) (hs : s ≤ l.length) :
    pySlice l (s : Int) (l.length : Int) = l.drop s := by
  rw [pySlice_nat l s l.length hs le_rfl]
  have : (l.drop s).length = l.length - s := List.length_drop s l
  rw [← this, List.take_length]

theorem chunkLoop_append (text : List Char) (csize ov fuel : Nat) :
    ∀ (start : Int) (acc : List (List Char)),
      chunkLoop text csize ov fuel start acc =
        (chunkLoop text csize ov fuel start []).map (fun l => acc ++ l) := by
  induction fuel with
  | zero => intro start acc; rfl
  | succ fuel ih =>
    intro start acc
    simp only [chunkLoop]
    split
    · split
      · simp
      · rw [ih, ih _ ([] ++ [_])]
        cases chunkLoop text csize ov fuel _ [] <;> simp
    · simp

/-- Invariant of the splitting loop on documents without sentence
boundaries: from any natural `start`, a terminating run reconstructs the
suffix `text.drop start` once the overlap is removed, and (below the end
of the text) its first chunk has length `min chunk_size (len - start)`. -/
theorem chunkLoop_dechunk (text : List Char) (csize ov : Nat)
    (hov : ov < csize) (hdot : '.' ∉ text) (hnl : '\n' ∉ text)
    (fuel : Nat) :
    ∀ (start : Nat) (cs : List (List Char)),
      chunkLoop text csize ov fuel (start : Int) [] = some cs →
      dechunk ov cs = text.drop start ∧
        (start < text.length → ∃ c rest, cs = c :: rest ∧
          c.length = min csize (text.length - start)) := by
  induction fuel with
  | zero => intro start cs h; exact absurd h (by simp [chunkLoop])
  | succ fuel ih =>
    intro start cs h
    simp only [chunkLoop] at h
    by_cases h1 : (start : Int) < (text.length : Int)
    · rw [if_pos h1] at h
      have hsl : start < text.length := by exact_mod_cast h1
      by_cases h2 : ((text.length : Int)) ≤ (start : Int) + (csize : Int)
      · rw [if_pos h2] at h
        have hcs : cs = [pySlice text (start : Int) (text.length : Int)] := by
          simpa using h.symm
        subst hcs
        rw [pySlice_to_end text start (le_of_lt hsl)]
        refine ⟨?_, ?_⟩
        · simp [dechunk]
        · intro _
          refine ⟨text.drop start, [], rfl, ?_⟩
          rw [List.length_drop]
          have : text.length - start ≤ csize := by omega
          omega
      · rw [if_neg h2] at h
        rw [pyRfind_eq_neg_one text _ _ _ hdot,
          pyRfind_eq_neg_one text _ _ _ hnl] at h
        have hcut : ¬((start : Int) < max (-1 : Int) (-1)) := by
          simp; omega
        rw [if_neg hcut] at h
        have hlt : start + csize < text.length := by omega
        have hcast : (start : Int) + (csize : Int) - (ov : Int) =
            ((start + csize - ov : Nat) : Int) := by
          omega
        rw [hcast, chunkLoop_append] at h
        rcases hrec : chunkLoop text csize ov fuel
            ((start + csize - ov : Nat) : Int) [] with _ | cs'
        · rw [hrec] at h; simp at h
        · rw [hrec] at h
          have hcs : cs = pySlice text (start : Int)
              ((start : Int) + (csize : Int)) :: cs' := by
            simpa using h.symm
          subst hcs
          obtain ⟨hrecon, hhead⟩ := ih (start + csize - ov) cs' hrec
          have hlt' : start + csize - ov < text.length := by omega
          obtain ⟨c', rest', hcs', hclen⟩ := hhead hlt'
          subst hcs'
          have hdov : ov ≤ c'.length := by
            rw [hclen]; omega
          have hslice : pySlice text (start : Int)
              ((start : Int) + (csize : Int)) = (text.drop start).take csize := by
            have : (start : Int) + (csize : Int) = ((start + csize : Nat) : Int) := by
              omega
            rw [this, pySlice_nat text start (start + csize) (by omega) (by omega)]
            congr 1
            omega
          rw [hslice]
          constructor
          · show (text.drop start).take csize ++
                (List.map (fun d => d.drop ov) (c' :: rest')).flatten =
              text.drop start
            rw [List.map_cons, List.flatten_cons,
              ← List.drop_append_of_le_length hdov]
            have hdch : dechunk ov (c' :: rest') =
                c' ++ (rest'.map (fun d => d.drop ov)).flatten := rfl
            rw [← hdch, hrecon, List.drop_drop]
            have hidx : start + csize - ov + ov = start + csize := by omega
            rw [hidx]
            have hdd : text.drop (start + csize) =
                (text.drop start).drop csize := by
              rw [List.drop_drop]
            rw [hdd, List.take_append_drop]
          · intro _
            refine ⟨(text.drop start).take csize, c' :: rest', rfl, ?_⟩
            rw [List.length_take, List.length_drop]
    · rw [if_neg h1] at h
      have hcs : cs = [] := by simpa using h.symm
      subst hcs
      refine ⟨?_, ?_⟩
      · rw [List.drop_eq_nil_of_le (by omega)]
        rfl
      · intro hlt
        exact absurd hlt (by omega)

/-- C2 (amended): the overlap round-trip holds only for the raw chunks,
before the final strip-and-filter step.  For a document containing no
period and no newline (so every cut falls at the window boundary), if the
splitting loop terminates then concatenating its raw chunks after removing
the `overlap`-character overlap from every chunk but the first
reconstructs the document exactly.  The subsequent strip-and-filter step
can discard whitespace and whole fragments (including the final one), so
the round-trip fails for `_chunk_text` itself, as
`chunk_text_roundtrip_cex` shows. -/
theorem chunk_text_raw_roundtrip (text : List Char) (csize ov fuel : Nat)
    (cs : List (List Char)) (hov : ov < csize)
    (hdot : '.' ∉ text) (hnl : '\n' ∉ text)
    (h : chunkLoop text csize ov fuel 0 [] = some cs) :
    dechunk ov cs = text := by
  have h0 : ((0 : Nat) : Int) = (0 : Int) := rfl
  have hmain := (chunkLoop_dechunk text csize ov hov hdot hnl fuel 0 cs
    (by rw [h0]; exact h)).1
  simpa using hmain

/-- Witness for the amended C2: on `chunkCexText` the raw chunks are
`[x^1000, x^200 ++ sp^250]` and their overlap-removing concatenation is
the original document. -/
theorem chunk_text_raw_roundtrip_witness :
    dechunk 200 chunkRawDemo = chunkCexText :=
  chunk_text_raw_roundtrip chunkCexText 1000 200 10 chunkRawDemo
    (by decide) (by decide) (by decide) (by decide)

/-- C3: for every task and message list, if the primary model call
succeeds then `generate_with_fallback` returns its result and makes no
fallback attempt; if the primary call raises then exactly one fallback
attempt is made and its result (success or error) is returned; the whole
call raises if and only if both the primary and the fallback call
raise. -/
theorem generate_with_fallback_spec {α : Type}
    (models : List (String × String))
    (generate : String → List ChatMsg → Except String α)
    (task : String) (messages : List ChatMsg) :
    (∀ r, generate (LLMRouter.get_model_for_task models task) messages = .ok r →
      LLMRouter.generate_with_fallback models generate task messages =
        (.ok r, [(false, LLMRouter.get_model_for_task models task)])) ∧
    (∀ e, generate (LLMRouter.get_model_for_task models task) messages = .error e →
      (LLMRouter.generate_with_fallback models generate task messages).2 =
          [(false, LLMRouter.get_model_for_task models task),
            (true, LLMRouter.get_model_for_task models "followups")] ∧
        (LLMRouter.generate_with_fallback models generate task messages).1 =
          generate (LLMRouter.get_model_for_task models "followups") messages) ∧
    ((LLMRouter.generate_with_fallback models generate task messages).1.isOk = false ↔
      ((generate (LLMRouter.get_model_for_task models task) messages).isOk = false ∧
        (generate (LLMRouter.get_model_for_task models "followups") messages).isOk = false)) := by
  refine ⟨?_, ?_, ?_⟩
  · intro r hr
    simp [LLMRouter.generate_with_fallback, hr]
  · intro e he
    rcases hf : generate (LLMRouter.get_model_for_task models "followups") messages
        with e2 | r2 <;>
      simp [LLMRouter.generate_with_fallback, he, hf]
  · rcases hp : generate (LLMRouter.get_model_for_task models task) messages
        with e | r <;>
      rcases hf : generate (LLMRouter.get_model_for_task models "followups") messages
        with e2 | r2 <;>
      simp [LLMRouter.generate_with_fallback, hp, hf, Except.isOk, Except.toBool]

/-- Witness for C3: with the default models and a provider that rejects
the planner's primary model, the router makes exactly one fallback
attempt and returns the fallback's answer. -/
theorem generate_with_fallback_witness :
    (LLMRouter.generate_with_fallback [] c3Gen "planner" []).2 =
        [(false, "gemini-2.0-flash-exp"), (true, "gemini-1.5-flash")] ∧
      (LLMRouter.generate_with_fallback [] c3Gen "planner" []).1 =
        Except.ok "fallback answer" := by
  have h := (generate_with_fallback_spec [] c3Gen "planner" []).2.1
    "provider down" (by rfl)
  exact ⟨h.1, h.2.trans (by rfl)⟩

/-- C7: starting a crawl for a shop whose registered task is not done
returns the 400 conflict response, leaves the job registry unchanged, and
spawns no second crawl task. -/
theorem start_crawl_conflict (jobs : List (String × Bool)) (shop_id : String)
    (h : jobs.lookup shop_id = some false) :
    start_crawl jobs shop_id =
      { response := .error (400, "Crawl already in progress for this shop"),
        jobs := jobs, task_created := false } := by
  simp [start_crawl, h]

/-- Witness for C7: a registry holding an active (not done) job for shop
"acme" rejects a second start. -/
theorem start_crawl_conflict_witness :
    ([("acme", false)] : List (String × Bool)).lookup "acme" = some false ∧
      start_crawl [("acme", false)] "acme" =
        { response := .error (400, "Crawl already in progress for this shop"),
          jobs := [("acme", false)], task_created := false } :=
  ⟨by decide, start_crawl_conflict [("acme", false)] "acme" (by decide)⟩

theorem crawlSteps_counters (process : String → Except String Unit)
    (urls : List String) :
    ∀ (s : CrawlStatus), s.pages_indexed = s.pages_processed →
      ∀ x ∈ crawlSteps process s urls,
        x.pages_indexed = x.pages_processed := by
  induction urls with
  | nil => intro s hs x hx; simp [crawlSteps] at hx
  | cons url rest ih =>
    intro s hs x hx
    rcases hp : process url with e | u <;>
      simp only [crawlSteps, hp] at hx <;>
      rcases List.mem_cons.mp hx with hx | hx
    · subst hx; exact hs
    · exact ih { s with last_error := some e } hs x hx
    · subst hx; exact congrArg (fun n => n + 1) hs
    · refine ih { s with pages_processed := s.pages_processed + 1, pages_indexed := s.pages_indexed + 1 } ?_ x hx
      exact congrArg (fun n => n + 1) hs

theorem crawl_last_counters (process : String → Except String Unit)
    (urls : List String) (s1 : CrawlStatus)
    (h1 : s1.pages_indexed = s1.pages_processed) :
    ((s1 :: crawlSteps process s1 urls).getLast
        (List.cons_ne_nil s1 (crawlSteps process s1 urls))).pages_indexed =
      ((s1 :: crawlSteps process s1 urls).getLast
        (List.cons_ne_nil s1 (crawlSteps process s1 urls))).pages_processed := by
  have hmem := List.getLast_mem (List.cons_ne_nil s1 (crawlSteps process s1 urls))
  rcases List.mem_cons.mp hmem with hh | hh
  · rw [hh]; exact h1
  · exact crawlSteps_counters process urls s1 h1 _ hh

/-- C8: every snapshot of the `CrawlStatus` record produced by a crawl
job (initial, after discovery, after each URL, final, and on discovery
failure) satisfies `pages_indexed = pages_processed`: the crawl loop
increments the two counters together on success and neither on a per-page
failure. -/
theorem crawl_shop_counters (discover : Except String (List String))
    (process : String → Except String Unit) (shop_id : String) (t0 t1 : Nat)
    (s : CrawlStatus)
    (h : s ∈ CrawlerService.crawl_shop discover process shop_id t0 t1) :
    s.pages_indexed = s.pages_processed := by
  rcases discover with e | urls
  · simp only [CrawlerService.crawl_shop, List.mem_cons, List.not_mem_nil,
      or_false] at h
    rcases h with rfl | rfl <;> rfl
  · simp only [CrawlerService.crawl_shop, List.mem_cons, List.mem_append,
      List.not_mem_nil, or_false] at h
    rcases h with (rfl | rfl | h) | rfl
    · rfl
    · rfl
    · exact crawlSteps_counters process urls _ rfl s h
    · exact crawl_last_counters process urls _ rfl

/-- Witness for C8: in a two-URL crawl whose second page fails, the final
completed status is among the snapshots and its counters agree. -/
theorem crawl_shop_counters_witness :
    c8Final ∈ CrawlerService.crawl_shop
        (.ok ["https://shop.example/", "https://shop.example/broken"])
        c8Process "acme" 0 1 ∧
      c8Final.pages_indexed = c8Final.pages_processed :=
  ⟨by decide,
    crawl_shop_counters (.ok ["https://shop.example/", "https://shop.example/broken"])
      c8Process "acme" 0 1 c8Final (by decide)⟩

theorem pickReranked_length (sources : List Source) (rs : List (Nat × Int))
    (out : List Source) (h : pickReranked sources rs = .ok out) :
    out.length = rs.length := by
  induction rs generalizing out with
  | nil =>
    simp only [pickReranked] at h
    injection h with h1
    subst h1
    rfl
  | cons r rest ih =>
    obtain ⟨idx, sc⟩ := r
    simp only [pickReranked] at h
    cases hg : sources.get? idx with
    | none => rw [hg] at h; simp at h
    | some s =>
      rw [hg] at h
      cases hr : pickReranked sources rest with
      | error e => rw [hr] at h; simp [Except.map] at h
      | ok out' =>
        rw [hr] at h
        simp only [Except.map] at h
        injection h with h1
        subst h1
        simp [ih out' hr]

theorem pickReranked_mem (sources : List Source) (rs : List (Nat × Int))
    (out : List Source) (h : pickReranked sources rs = .ok out)
    (s' : Source) (hm : s' ∈ out) :
    ∃ s ∈ sources, ∃ sc : Int, s' = { s with score := sc } := by
  induction rs generalizing out with
  | nil =>
    simp only [pickReranked] at h
    injection h with h1
    subst h1
    simp at hm
  | cons r rest ih =>
    obtain ⟨idx, sc⟩ := r
    simp only [pickReranked] at h
    cases hg : sources.get? idx with
    | none => rw [hg] at h; simp at h
    | some s =>
      rw [hg] at h
      cases hr : pickReranked sources rest with
      | error e => rw [hr] at h; simp [Except.map] at h
      | ok out' =>
        rw [hr] at h
        simp only [Except.map] at h
        injection h with h1
        subst h1
        rcases List.mem_cons.mp hm with rfl | hm'
        · exact ⟨s, List.get?_mem hg, sc, rfl⟩
        · exact ih out' hr hm'

theorem mem_insertScoredDesc (p x : Source × Int) (l : List (Source × Int))
    (h : x ∈ insertScoredDesc p l) : x = p ∨ x ∈ l := by
  induction l with
  | nil => simpa [insertScoredDesc] using h
  | cons q l ih =>
    simp only [insertScoredDesc] at h
    by_cases hc : q.2 ≤ p.2
    · rw [if_pos hc] at h
      rcases List.mem_cons.mp h with rfl | h2
      · exact Or.inl rfl
      · exact Or.inr h2
    · rw [if_neg hc] at h
      rcases List.mem_cons.mp h with rfl | h2
      · exact Or.inr (List.mem_cons_self _ _)
      · rcases ih h2 with h3 | h3
        · exact Or.inl h3
        · exact Or.inr (List.mem_cons_of_mem _ h3)

theorem mem_sortScoredDesc (x : Source × Int) (l : List (Source × Int))
    (h : x ∈ sortScoredDesc l) : x ∈ l := by
  induction l with
  | nil => simp [sortScoredDesc] at h
  | cons p l ih =>
    rcases mem_insertScoredDesc p x (sortScoredDesc l) h with rfl | h2
    · exact List.mem_cons_self _ _
    · exact List.mem_cons_of_mem _ (ih h2)

theorem rerank_with_bge_length (env : RagEnv) (query : String)
    (sources : List Source) (top_n : Nat) (r : List Source)
    (h : RerankerService.rerank_with_bge env query sources top_n = .ok r) :
    r.length ≤ top_n := by
  unfold RerankerService.rerank_with_bge at h
  cases hb : env.bge_scores (sources.map (fun s => (query, s.snippet))) with
  | error e =>
    rw [hb] at h
    simp [Bind.bind, Except.bind, Functor.map, Except.map] at h
  | ok scores =>
    rw [hb] at h
    simp only [Bind.bind, Except.bind, Pure.pure, Except.pure,
      Functor.map, Except.map] at h
    injection h with h1
    subst h1
    simp only [List.length_map, List.length_take]
    omega

theorem rerank_with_cohere_length (env : RagEnv) (query : String)
    (sources : List Source) (top_n : Nat) (r : List Source)
    (hco : ∀ out, env.cohere_rerank query (sources.map (fun s => s.snippet)) top_n =
      .ok out → out.length ≤ top_n)
    (h : RerankerService.rerank_with_cohere env query sources top_n = .ok r) :
    r.length ≤ top_n := by
  unfold RerankerService.rerank_with_cohere at h
  cases hk : env.cohere_api_key with
  | none =>
    rw [hk] at h
    injection h with h1
    subst h1
    exact List.length_take_le _ _
  | some key =>
    rw [hk] at h
    cases hc : env.cohere_rerank query (sources.map (fun s => s.snippet)) top_n with
    | error e => rw [hc] at h; simp [Bind.bind, Except.bind] at h
    | ok out =>
      rw [hc] at h
      simp only [Bind.bind, Except.bind] at h
      rw [pickReranked_length sources out r h]
      exact hco out hc

theorem rerank_with_jina_length (env : RagEnv) (query : String)
    (sources : List Source) (top_n : Nat) (r : List Source)
    (hji : ∀ out, env.jina_rerank query (sources.map (fun s => s.snippet)) top_n =
      .ok out → out.length ≤ top_n)
    (h : RerankerService.rerank_with_jina env query sources top_n = .ok r) :
    r.length ≤ top_n := by
  unfold RerankerService.rerank_with_jina at h
  cases hk : env.jina_api_key with
  | none =>
    rw [hk] at h
    injection h with h1
    subst h1
    exact List.length_take_le _ _
  | some key =>
    rw [hk] at h
    cases hc : env.jina_rerank query (sources.map (fun s => s.snippet)) top_n with
    | error e => rw [hc] at h; simp [Bind.bind, Except.bind] at h
    | ok out =>
      rw [hc] at h
      simp only [Bind.bind, Except.bind] at h
      rw [pickReranked_length sources out r h]
      exact hji out hc

theorem rerank_sources_length (env : RagEnv) (query : String)
    (sources : List Source) (top_n : Nat)
    (hco : ∀ out, env.cohere_rerank query (sources.map (fun s => s.snippet)) top_n =
      .ok out → out.length ≤ top_n)
    (hji : ∀ out, env.jina_rerank query (sources.map (fun s => s.snippet)) top_n =
      .ok out → out.length ≤ top_n) :
    (RerankerService.rerank env query sources top_n).length ≤ top_n := by
  unfold RerankerService.rerank
  split
  · exact List.length_take_le _ _
  · split
    case _ reranked hr =>
      by_cases h1 : env.reranker = "local_bge"
      · rw [if_pos h1] at hr
        exact rerank_with_bge_length env query sources top_n reranked hr
      · rw [if_neg h1] at hr
        by_cases h2 : env.reranker = "cohere"
        · rw [if_pos h2] at hr
          exact rerank_with_cohere_length env query sources top_n reranked hco hr
        · rw [if_neg h2] at hr
          by_cases h3 : env.reranker = "jina_cloud"
          · rw [if_pos h3] at hr
            exact rerank_with_jina_length env query sources top_n reranked hji hr
          · rw [if_neg h3] at hr
            injection hr with h4
            subst h4
            exact List.length_take_le _ _
    case _ e hr =>
      exact List.length_take_le _ _

theorem rerank_with_bge_mem (env : RagEnv) (query : String)
    (sources : List Source) (top_n : Nat) (r : List Source)
    (h : RerankerService.rerank_with_bge env query sources top_n = .ok r)
    (s' : Source) (hm : s' ∈ r) :
    ∃ s ∈ sources, s'.url = s.url ∧ s'.title = s.title ∧
      s'.snippet = s.snippet := by
  unfold RerankerService.rerank_with_bge at h
  cases hb : env.bge_scores (sources.map (fun s => (query, s.snippet))) with
  | error e =>
    rw [hb] at h
    simp [Bind.bind, Except.bind, Functor.map, Except.map] at h
  | ok scores =>
    rw [hb] at h
    simp only [Bind.bind, Except.bind, Pure.pure, Except.pure,
      Functor.map, Except.map] at h
    injection h with h1
    subst h1
    obtain ⟨p, hp, hps⟩ := List.mem_map.mp hm
    obtain ⟨ps, pscore⟩ := p
    have hp2 : (ps, pscore) ∈ sortScoredDesc (sources.zip scores) :=
      List.take_subset _ _ hp
    have hp3 : (ps, pscore) ∈ sources.zip scores := mem_sortScoredDesc _ _ hp2
    subst hps
    exact ⟨ps, (List.of_mem_zip hp3).1, rfl, rfl, rfl⟩

theorem rerank_with_cohere_mem (env : RagEnv) (query : String)
    (sources : List Source) (top_n : Nat) (r : List Source)
    (h : RerankerService.rerank_with_cohere env query sources top_n = .ok r)
    (s' : Source) (hm : s' ∈ r) :
    ∃ s ∈ sources, s'.url = s.url ∧ s'.title = s.title ∧
      s'.snippet = s.snippet := by
  unfold RerankerService.rerank_with_cohere at h
  cases hk : env.cohere_api_key with
  | none =>
    rw [hk] at h
    injection h with h1
    subst h1
    exact ⟨s', List.take_subset _ _ hm, rfl, rfl, rfl⟩
  | some key =>
    rw [hk] at h
    cases hc : env.cohere_rerank query (sources.map (fun s => s.snippet)) top_n with
    | error e => rw [hc] at h; simp [Bind.bind, Except.bind] at h
    | ok out =>
      rw [hc] at h
      simp only [Bind.bind, Except.bind] at h
      obtain ⟨s, hsmem, sc, rfl⟩ := pickReranked_mem sources out r h s' hm
      exact ⟨s, hsmem, rfl, rfl, rfl⟩

theorem rerank_with_jina_mem (env : RagEnv) (query : String)
    (sources : List Source) (top_n : Nat) (r : List Source)
    (h : RerankerService.rerank_with_jina env query sources top_n = .ok r)
    (s' : Source) (hm : s' ∈ r) :
    ∃ s ∈ sources, s'.url = s.url ∧ s'.title = s.title ∧
      s'.snippet = s.snippet := by
  unfold RerankerService.rerank_with_jina at h
  cases hk : env.jina_api_key with
  | none =>
    rw [hk] at h
    injection h with h1
    subst h1
    exact ⟨s', List.take_subset _ _ hm, rfl, rfl, rfl⟩
  | some key =>
    rw [hk] at h
    cases hc : env.jina_rerank query (sources.map (fun s => s.snippet)) top_n with
    | error e => rw [hc] at h; simp [Bind.bind, Except.bind] at h
    | ok out =>
      rw [hc] at h
      simp only [Bind.bind, Except.bind] at h
      obtain ⟨s, hsmem, sc, rfl⟩ := pickReranked_mem sources out r h s' hm
      exact ⟨s, hsmem, rfl, rfl, rfl⟩

theorem rerank_mem (env : RagEnv) (query : String) (sources : List Source)
    (top_n : Nat) (s' : Source)
    (h : s' ∈ RerankerService.rerank env query sources top_n) :
    ∃ s ∈ sources, s'.url = s.url ∧ s'.title = s.title ∧
      s'.snippet = s.snippet := by
  unfold RerankerService.rerank at h
  split at h
  · exact ⟨s', List.take_subset _ _ h, rfl, rfl, rfl⟩
  · split at h
    case _ reranked hr =>
      by_cases h1 : env.reranker = "local_bge"
      · rw [if_pos h1] at hr
        exact rerank_with_bge_mem env query sources top_n reranked hr s' h
      · rw [if_neg h1] at hr
        by_cases h2 : env.reranker = "cohere"
        · rw [if_pos h2] at hr
          exact rerank_with_cohere_mem env query sources top_n reranked hr s' h
        · rw [if_neg h2] at hr
          by_cases h3 : env.reranker = "jina_cloud"
          · rw [if_pos h3] at hr
            exact rerank_with_jina_mem env query sources top_n reranked hr s' h
          · rw [if_neg h3] at hr
            injection hr with h4
            subst h4
            exact ⟨s', List.take_subset _ _ h, rfl, rfl, rfl⟩
    case _ e hr =>
      exact ⟨s', List.take_subset _ _ h, rfl, rfl, rfl⟩

theorem mkSnippet_length (t : List Char) : (mkSnippet t).length ≤ 303 := by
  unfold mkSnippet
  split
  · rw [List.length_append, List.length_take]
    have h3 : ("...".toList).length = 3 := rfl
    rw [h3]
    omega
  · next hle => omega

/-- C6 counterexample: with the Cohere reranker selected and the remote
API answering two rows for `top_n = 1`, a query with `top_k = 2` and
`rerank_top_n = 1` comes back with 2 sources — the claimed bound
`len(sources) ≤ rerank_top_n` fails. -/
theorem rag_query_sources_bound_cex :
    c6Query.rerank_top_n ≤ c6Query.top_k ∧
      ¬((RAGService.query c6Env c6Query).sources.length ≤ c6Query.rerank_top_n) := by
  constructor
  · decide
  · decide

/-- C6 (amended): for every query with `rerank_top_n = n ≤ top_k`, the
response holds at most `n` sources under the `none`, local cross-encoder,
unknown and failing reranker strategies unconditionally; for the remote
API strategies (Cohere, Jina) the bound additionally requires the remote
response to contain at most `n` result rows (their documented contract) —
the code copies remote rows without truncating, so an overfull remote
response violates the bound (see the counterexample). -/
theorem rag_query_sources_bound (env : RagEnv) (q : RAGQuery)
    (_hkn : q.rerank_top_n ≤ q.top_k)
    (hco : ∀ docs out, env.cohere_rerank q.question docs q.rerank_top_n = .ok out →
      out.length ≤ q.rerank_top_n)
    (hji : ∀ docs out, env.jina_rerank q.question docs q.rerank_top_n = .ok out →
      out.length ≤ q.rerank_top_n) :
    (RAGService.query env q).sources.length ≤ q.rerank_top_n := by
  unfold RAGService.query
  cases hbody : RAGService.query_body env q with
  | error e => simp [ragErrorResponse]
  | ok r =>
    unfold RAGService.query_body at hbody
    cases he : env.embed q.question with
    | error e => rw [he] at hbody; simp [Bind.bind, Except.bind] at hbody
    | ok vec =>
      rw [he] at hbody
      simp only [Bind.bind, Except.bind] at hbody
      cases hs : env.search vec q.shop_id q.top_k with
      | error e => rw [hs] at hbody; simp [Except.bind] at hbody
      | ok hits =>
        rw [hs] at hbody
        simp only [Except.bind] at hbody
        by_cases hemp : (hits.map sourceOfHit).isEmpty = true
        · rw [if_pos hemp] at hbody
          simp only [Pure.pure, Except.pure] at hbody
          injection hbody with h1
          subst h1
          simp
        · rw [if_neg hemp] at hbody
          simp only [Pure.pure, Except.pure] at hbody
          injection hbody with h1
          subst h1
          exact rerank_sources_length env q.question (hits.map sourceOfHit)
            q.rerank_top_n (hco _) (hji _)

/-- Witness for the amended C6: a Cohere environment honouring the
`top_n` contract yields at most `rerank_top_n` sources. -/
theorem rag_query_sources_bound_witness :
    (RAGService.query c6WitEnv c6Query).sources.length ≤ c6Query.rerank_top_n :=
  rag_query_sources_bound c6WitEnv c6Query (by decide)
    (by
      intro docs out h
      simp only [c6WitEnv] at h
      injection h with h1
      rw [← h1]
      decide)
    (by
      intro docs out h
      simp [c6WitEnv] at h)

/-- C10: whenever retrieval succeeds, every source of the response is
derived from one of the retrieved hits, its snippet obeying the rule
`text[:300] + "..."` for texts over 300 characters and the full text
otherwise; hence every returned snippet is at most 303 characters. -/
theorem rag_query_snippet_rule (env : RagEnv) (q : RAGQuery) (vec : List Int)
    (hits : List SearchHit) (he : env.embed q.question = .ok vec)
    (hs : env.search vec q.shop_id q.top_k = .ok hits)
    (s : Source) (hmem : s ∈ (RAGService.query env q).sources) :
    (∃ h ∈ hits, s.url = h.url ∧ s.title = h.title ∧
      s.snippet = mkSnippet h.text) ∧ s.snippet.length ≤ 303 := by
  unfold RAGService.query RAGService.query_body at hmem
  rw [he] at hmem
  simp only [Bind.bind, Except.bind] at hmem
  rw [hs] at hmem
  simp only [Except.bind] at hmem
  by_cases hemp : (hits.map sourceOfHit).isEmpty = true
  · rw [if_pos hemp] at hmem
    simp [Pure.pure, Except.pure] at hmem
  · rw [if_neg hemp] at hmem
    simp only [Pure.pure, Except.pure] at hmem
    obtain ⟨src, hsrc, hu, ht, hsn⟩ := rerank_mem env q.question
      (hits.map sourceOfHit) q.rerank_top_n s hmem
    obtain ⟨hit, hhit, rfl⟩ := List.mem_map.mp hsrc
    refine ⟨⟨hit, hhit, hu, ht, hsn⟩, ?_⟩
    rw [hsn]
    exact mkSnippet_length hit.text

/-- Witness for C10: a 400-character chunk comes back as the 303-character
snippet `text[:300] + "..."`. -/
theorem rag_query_snippet_rule_witness :
    (∃ h ∈ [c10Hit], (sourceOfHit c10Hit).url = h.url ∧
        (sourceOfHit c10Hit).title = h.title ∧
        (sourceOfHit c10Hit).snippet = mkSnippet h.text) ∧
      (sourceOfHit c10Hit).snippet.length ≤ 303 :=
  rag_query_snippet_rule c10Env c10Query [1] [c10Hit] rfl rfl
    (sourceOfHit c10Hit) (by decide)

/-- C1 counterexample: with the embedding model raising, the underlying
query operation fails internally, yet `POST /rag/query` answers with a
success response carrying the fixed apologetic `RAGResponse` — the failure
does not propagate to the API caller as an error HTTP response. -/
theorem rag_query_propagation_cex :
    RAGService.query_body c1Env c1Query = .error "embedding model offline" ∧
      rag_query_endpoint c1Env c1Query = .ok ragErrorResponse :=
  ⟨rfl, rfl⟩

/-- C1 (amended): when the underlying query operation fails internally,
the failure does not propagate: `RAGService.query` catches it and returns
a normal `RAGResponse` with the fixed apologetic answer and empty sources,
which `POST /rag/query` returns as a success; the endpoint's HTTP-500
branch is unreachable for such failures, so callers cannot distinguish
"no answer" from "service error" by the HTTP status. -/
theorem rag_query_internal_error_no_propagation (env : RagEnv) (q : RAGQuery)
    (e : String) (h : RAGService.query_body env q = .error e) :
    rag_query_endpoint env q = .ok ragErrorResponse := by
  unfold rag_query_endpoint RAGService.query
  rw [h]

/-- Witness for the amended C1 at the concrete failing environment. -/
theorem rag_query_internal_error_witness :
    rag_query_endpoint c1Env c1Query = .ok ragErrorResponse :=
  rag_query_internal_error_no_propagation c1Env c1Query
    "embedding model offline" rfl

/-- C4: when the planner completion succeeds but its output is not
parseable as JSON, the planning step yields the decision
`action = rag_only`, the turn is dispatched as pure retrieval
(`action_taken = "rag_search"`), and the `/chat` endpoint returns a
success response (no exception from planning reaches the caller). -/
theorem planner_non_json_defaults (env : AgentEnv) (shop_id user_message : String)
    (prompt response e : String)
    (hp : env.get_prompt "agent/planner" = .ok prompt)
    (hr : (LLMRouter.generate_with_fallback env.models env.gen "planner"
      [{ role := "user", content := prompt }]).1 = .ok response)
    (hj : env.json_loads response = .error e) :
    AgentOrchestrator.make_planning_decision env = ragOnlyDecision ∧
      (AgentOrchestrator.process_query env shop_id user_message).action_taken =
        "rag_search" ∧
      chat_endpoint env shop_id user_message =
        .ok (AgentOrchestrator.process_query env shop_id user_message) := by
  have hdec : AgentOrchestrator.make_planning_decision env = ragOnlyDecision := by
    unfold AgentOrchestrator.make_planning_decision
    rw [hp]
    simp only [Bind.bind, Except.bind]
    rw [hr]
    simp [hj]
  refine ⟨hdec, ?_, rfl⟩
  unfold AgentOrchestrator.process_query
  rw [hdec]
  simp [ragOnlyDecision, Bind.bind, Except.bind, Pure.pure, Except.pure,
    List.lookup]

/-- Witness for C4: the planner answers prose, the decision defaults to
`rag_only`, the turn runs as retrieval, and `/chat` answers success. -/
theorem planner_non_json_defaults_witness :
    AgentOrchestrator.make_planning_decision c4Env = ragOnlyDecision ∧
      (AgentOrchestrator.process_query c4Env "acme" "returns?").action_taken =
        "rag_search" ∧
      chat_endpoint c4Env "acme" "returns?" =
        .ok (AgentOrchestrator.process_query c4Env "acme" "returns?") :=
  planner_non_json_defaults c4Env "acme" "returns?" "PROMPT"
    "I think we should retrieve." "Expecting value: line 1 column 1 (char 0)"
    rfl rfl rfl

theorem runToolCall_dict (env : AgentEnv) (shop_id : String)
    (lastArgs : Option (List (String × Json))) (c : ToolCallReq)
    (d : List (String × Json)) (hd : c.arguments = PyArgs.dict d) :
    ∃ tr entry newLast,
      runToolCall env shop_id lastArgs c = .ok (tr, entry, newLast) ∧
        tr.name = c.name := by
  unfold runToolCall
  rw [hd]
  exact ⟨_, _, _, rfl, rfl⟩

theorem runToolCalls_all_executed (env : AgentEnv) (shop_id : String)
    (calls : List ToolCallReq) :
    ∀ (lastArgs : Option (List (String × Json))) (traces : List ToolTrace)
      (results : List (String × Json)),
      (∀ c ∈ calls, ∃ d, c.arguments = PyArgs.dict d) →
      (runToolCalls env shop_id calls lastArgs traces results).2.2 = none ∧
        (runToolCalls env shop_id calls lastArgs traces results).1.map
            (fun t => t.name) =
          traces.map (fun t => t.name) ++ calls.map (fun c => c.name) := by
  induction calls with
  | nil =>
    intro lastArgs traces results _
    exact ⟨rfl, by simp [runToolCalls]⟩
  | cons c rest ih =>
    intro lastArgs traces results hdict
    obtain ⟨d, hd⟩ := hdict c (List.mem_cons_self c rest)
    obtain ⟨tr, entry, newLast, hrun, hname⟩ :=
      runToolCall_dict env shop_id lastArgs c d hd
    have hdict' : ∀ x ∈ rest, ∃ d2, x.arguments = PyArgs.dict d2 :=
      fun x hx => hdict x (List.mem_cons_of_mem c hx)
    simp only [runToolCalls]
    rw [hrun]
    cases entry with
    | none =>
      obtain ⟨h1, h2⟩ := ih newLast (traces ++ [tr]) results hdict'
      refine ⟨h1, ?_⟩
      rw [h2]
      simp [hname]
    | some kv =>
      obtain ⟨k, v⟩ := kv
      obtain ⟨h1, h2⟩ := ih newLast (traces ++ [tr])
        (dictUpdate results k v) hdict'
      refine ⟨h1, ?_⟩
      rw [h2]
      simp [hname]

/-- C5: `execute_tool` never raises — an unknown tool name yields the
structured unknown-tool error result and a raising handler yields
`{error: message}` — and in the per-turn tool loop, when every requested
call carries a decoded argument dict, no iteration aborts the loop and
every call (failing handlers included) is executed and traced, in
order. -/
theorem execute_tool_isolation (env : AgentEnv) (shop_id : String)
    (tools : List (String × ToolHandler)) (tool_name : String)
    (arguments : List (String × Json)) (calls : List ToolCallReq)
    (hdict : ∀ c ∈ calls, ∃ d, c.arguments = PyArgs.dict d) :
    (tools.lookup tool_name = none →
      ToolRegistry.execute_tool tools tool_name arguments =
        Json.obj [("error", Json.str ("Unknown tool: " ++ tool_name))]) ∧
    (∀ handler e, tools.lookup tool_name = some handler →
      handler arguments = .error e →
      ToolRegistry.execute_tool tools tool_name arguments =
        Json.obj [("error", Json.str e)]) ∧
    (runToolCalls env shop_id calls none [] []).2.2 = none ∧
    (runToolCalls env shop_id calls none [] []).1.map (fun t => t.name) =
      calls.map (fun c => c.name) := by
  refine ⟨?_, ?_, ?_, ?_⟩
  · intro hnone
    unfold ToolRegistry.execute_tool
    rw [hnone]
  · intro handler e hsome herr
    unfold ToolRegistry.execute_tool
    rw [hsome]
    simp [herr]
  · exact (runToolCalls_all_executed env shop_id calls none [] [] hdict).1
  · have h2 := (runToolCalls_all_executed env shop_id calls none [] [] hdict).2
    simpa using h2

/-- Witness for C5: with a raising currency handler and a succeeding
geolocation handler, both calls execute and are traced in order, the
loop does not abort, and the error results are the structured dicts. -/
theorem execute_tool_isolation_witness :
    ToolRegistry.execute_tool c5Tools "convert_currency" [] =
        Json.obj [("error", Json.str "rate service down")] ∧
      ToolRegistry.execute_tool c5Tools "get_weather" [] =
        Json.obj [("error", Json.str "Unknown tool: get_weather")] ∧
      (runToolCalls c5Env "acme" c5Calls none [] []).2.2 = none ∧
      (runToolCalls c5Env "acme" c5Calls none [] []).1.map (fun t => t.name) =
        ["convert_currency", "geolocate_ip"] := by
  have hdict : ∀ c ∈ c5Calls, ∃ d, c.arguments = PyArgs.dict d := by
    intro c hc
    simp only [c5Calls] at hc
    rcases List.mem_cons.mp hc with rfl | hc2
    · exact ⟨[("amount", Json.num 100)], rfl⟩
    · rcases List.mem_cons.mp hc2 with rfl | hc3
      · exact ⟨[], rfl⟩
      · simp at hc3
  have T := execute_tool_isolation c5Env "acme" c5Tools "convert_currency"
    [] c5Calls hdict
  have T2 := execute_tool_isolation c5Env "acme" c5Tools "get_weather"
    [] c5Calls hdict
  refine ⟨T.2.1 _ "rate service down" rfl rfl, T2.1 rfl, T.2.2.1, ?_⟩
  have h4 := T.2.2.2
  rw [h4]
  rfl
